import Mathlib

/-!
Verification of the RAG orchestration core of the Sparky repository.

The definitions below are a shallow embedding of the Python sources under
`src/app/models/RAG` and `src/app/models/web`:

* `cleanText`, `embed_query`      — `embedding.py` (`EmbeddingModel`)
* `cacheLoop`, `cache_web_results` — `web_cache.py`
* `route_query`, `route_question` — `router.py`, `rag_main_workflow.py`
* `generate_answer`, `generate_node` — `generate.py`, `rag_main_workflow.py`
* `isRelevantDoc`, `grade_documents`, `gradeDocsDecision` — `rag_main_workflow.py`,
  `control_flow.py`
* `grade_generation` — `rag_main_workflow.py` (defined there but wired into no graph)
* `web_search_fn` — `websearch.py`
* `nodeApply`, `nextNode`, `run` — the compiled `StateGraph` of `control_flow.py`

External capabilities (LLM calls, the md5 digest, the Ollama embedding backend,
the network fetcher) are inputs of the embedding: each is passed in as a
function or as an `Except`/`Option` value describing the call's outcome, so a
theorem quantifying over them covers every behaviour of the capability.
Python exceptions are modelled with `Except`; a `try/except` block becomes a
`match` on the `Except` value of the guarded call.
-/

namespace Sparky

/-! ## String utilities

Python string operations used by the source, re-implemented over `List Char`.
`\w` and `\s` are modelled at ASCII precision (the repository's data is
English-language web text).
-/

/-- Python `\s` class members (ASCII): space, tab, newline, carriage return,
vertical tab, form feed. -/
def isPySpace (c : Char) : Bool :=
  c == ' ' || c == '\t' || c == '\n' || c == '\r' || c == '\x0b' || c == '\x0c'

/-- Python `\w` class (ASCII): letters, digits, underscore. -/
def isWordChar (c : Char) : Bool :=
  c.isAlphanum || c == '_'

/-- The punctuation kept by `_clean_text`'s character filter `[^\w\s.,!?-]`. -/
def isPunctKept (c : Char) : Bool :=
  c == '.' || c == ',' || c == '!' || c == '?' || c == '-'

/-- Scanner for `re.sub(r'<[^>]+>', '', text)`.  The first argument is the
scanner mode: `none` is normal text; `some buf` means a `<` was read and
`buf` holds (reversed) the non-`>` characters seen since.  A `>` closing a
nonempty buffer completes a match and drops it; `<>` has no match and is
kept; an unclosed `<` and its buffer are kept at the end of input.  This is
one pass of the regex's leftmost, non-overlapping substitution. -/
def removeTagsGo : Option (List Char) → List Char → List Char
  | none, [] => []
  | none, c :: rest =>
    if c == '<' then removeTagsGo (some []) rest
    else c :: removeTagsGo none rest
  | some buf, [] => '<' :: buf.reverse
  | some buf, c :: rest =>
    if c == '>' then
      if buf.isEmpty then '<' :: '>' :: removeTagsGo none rest
      else removeTagsGo none rest
    else removeTagsGo (some (c :: buf)) rest

/-- `re.sub(r'<[^>]+>', '', text)`: drop every leftmost occurrence of a `<`,
one or more non-`>` characters, then `>`. -/
def removeTags (l : List Char) : List Char :=
  removeTagsGo none l

/-- Helper for `re.sub(p+, repl, text)`: replace each maximal run of
characters satisfying `p` by the single character `repl`.  The `Bool`
argument records whether the scanner is inside a run. -/
def collapseAux (p : Char → Bool) (repl : Char) : List Char → Bool → List Char
  | [], _ => []
  | c :: rest, inRun =>
    if p c then
      if inRun then collapseAux p repl rest true
      else repl :: collapseAux p repl rest true
    else
      c :: collapseAux p repl rest false

def collapseRuns (p : Char → Bool) (repl : Char) (l : List Char) : List Char :=
  collapseAux p repl l false

/-- Python `str.strip()` on a character list. -/
def pyStripChars (l : List Char) : List Char :=
  ((l.dropWhile isPySpace).reverse.dropWhile isPySpace).reverse

/-- Python `str.strip()`. -/
def pyStrip (s : String) : String :=
  String.mk (pyStripChars s.data)

/-- Python `str.lower()` (ASCII; the repository's keyword and grade strings
are ASCII).  Implemented over the character list so it reduces in the
kernel. -/
def pyLower (s : String) : String :=
  String.mk (s.data.map Char.toLower)

/-- Python `s[:n]`. -/
def pySlice (s : String) (n : Nat) : String :=
  String.mk (s.data.take n)

/-- Substring test: does `pat` occur as a contiguous run inside `s`?
Models Python's `pat in s`. -/
def infixOf (pat : List Char) : List Char → Bool
  | [] => pat.isEmpty
  | c :: rest => pat.isPrefixOf (c :: rest) || infixOf pat rest

def strContains (s pat : String) : Bool :=
  infixOf pat.data s.data

/-- `EmbeddingModel._clean_text`: strip HTML tags, collapse newline runs then
whitespace runs to single spaces, drop characters outside `[\w\s.,!?-]`,
strip, and truncate to 8192 characters. -/
def cleanText (s : String) : String :=
  let cs := removeTags s.data
  let cs := collapseRuns (fun c => c == '\n') ' ' cs
  let cs := collapseRuns isPySpace ' ' cs
  let cs := cs.filter (fun c => isWordChar c || isPySpace c || isPunctKept c)
  let cs := pyStripChars cs
  let cs := if cs.length > 8192 then cs.take 8192 else cs
  String.mk cs

/-! ## Embedding provider (`embedding.py`)

`EmbeddingModel.embed_query` accepts either a single string or a list of
strings (`text: str | list`); a list is joined with single spaces before
cleaning.  The underlying Ollama call `self.model.embed_documents([text])`
is the capability input `embedDocuments`. -/

/-- The `str | list` parameter type of `embed_query`. -/
inductive EmbedInput where
  | ofStr (s : String)
  | ofList (l : List String)
deriving Repr

/-- The external embedding backend: `self.model.embed_documents`. -/
structure EmbedBackend where
  embedDocuments : List String → List (List Float)

/-- `self.expected_dim = 3072`. -/
def expectedDim : Nat := 3072

/-- The `isinstance(text, list)` branch of `embed_query`: a list input is
joined into one string with single spaces, a string input passes through. -/
def joinInput : EmbedInput → String
  | .ofStr s => s
  | .ofList l => String.intercalate " " l

/-- `EmbeddingModel.embed_query`: join a list input with spaces, clean the
text, reject empty cleaned text, call the backend on the one-element list,
reject an empty response, and reject a first vector whose length is not
`expected_dim`.  All rejections raise in the source (`ValueError`, re-raised
by the final `except`), modelled as `Except.error`. -/
def embed_query (m : EmbedBackend) (input : EmbedInput) : Except String (List Float) :=
  let text := joinInput input
  let text := cleanText text
  if text == "" then
    .error "Empty text after cleaning"
  else
    match m.embedDocuments [text] with
    | [] => .error "Invalid embedding response"
    | result :: _ =>
      if result.isEmpty || result.length != expectedDim then
        .error "Unexpected embedding dimension"
      else
        .ok result

/-! ## The semantic cache (`web_cache.py`)

`cache_web_results` writes to two places: the MongoDB `knowledge` collection
(the document store) and the FAISS index (the vector index).  The md5 digest
is the capability input `md5`.  MongoDB operations are modelled as list
operations on the store; `find_one` during the per-document loop sees the
documents inserted earlier in the same call, so the loop threads the store. -/

/-- A document arriving from the web fetcher (a Python dict with these keys). -/
structure WebDoc where
  url : String
  title : String
  content : String
  description : String
deriving Repr, DecidableEq

/-- A document as stored in the `knowledge` collection by `cache_web_results`
(the claim-relevant fields of `doc_data`). -/
structure StoredDoc where
  page_content : String
  source : String
  title : String
  embedding_index : Nat
  query_hash : String
  content_hash : String
deriving Repr, DecidableEq

/-- The shared cache: the document store plus the FAISS index, the latter as
its list of rows (`ntotal` is the list length). -/
structure CacheState where
  store : List StoredDoc
  index : List (List Float)

/-- The per-document loop of `cache_web_results`: for each input document,
compute `content_hash`; skip it if a stored document already has that hash
(`find_one({"content_hash": ...})`); otherwise append its content to
`docs_to_embed` and insert the document into the store with
`embedding_index = current_index + len(docs_to_embed) - 1`.
Returns the grown store and the batch of texts to embed. -/
def cacheLoop (md5 : String → String) (query_hash : String) (current_index : Nat) :
    List WebDoc → List StoredDoc → List String → List StoredDoc × List String
  | [], store, docsToEmbed => (store, docsToEmbed)
  | doc :: rest, store, docsToEmbed =>
    let content_hash := md5 doc.content
    if store.any (fun s => s.content_hash == content_hash) then
      cacheLoop md5 query_hash current_index rest store docsToEmbed
    else
      let docsToEmbed := docsToEmbed ++ [doc.content]
      let newDoc : StoredDoc :=
        { page_content := doc.content
          source := doc.url
          title := doc.title
          embedding_index := current_index + docsToEmbed.length - 1
          query_hash := query_hash
          content_hash := content_hash }
      cacheLoop md5 query_hash current_index rest (store ++ [newDoc]) docsToEmbed

/-- `cache_web_results(documents, query)`: run the per-document loop, then, if
any new content was collected, embed the whole batch with ONE `embed_query`
call (the source passes the list `docs_to_embed`, which `embed_query` joins
into a single string) and append the resulting single row to the index
(`np.array(embeddings)` is 1-D, reshaped to one row of shape `(1, D)`).
An embedding failure is caught and the call returns `False`, with the
documents already inserted by the loop left in the store and the index
untouched.  Returns the success flag and the new cache state. -/
def cache_web_results (md5 : String → String) (m : EmbedBackend)
    (documents : List WebDoc) (query : String) (st : CacheState) :
    Bool × CacheState :=
  let query_hash := md5 query
  let current_index := st.index.length
  let (store, docsToEmbed) := cacheLoop md5 query_hash current_index documents st.store []
  if docsToEmbed.isEmpty then
    (true, { st with store := store })
  else
    match embed_query m (.ofList docsToEmbed) with
    | .error _ => (false, { store := store, index := st.index })
    | .ok emb => (true, { store := store, index := st.index ++ [emb] })

/-! ### Concrete instances used by counterexamples and witnesses -/

/-- A vector of the configured dimension 3072, written with an explicit head
so that `isEmpty` and `length` reduce without walking all 3072 cells. -/
def vec3072 : List Float := 0.0 :: List.replicate 3071 (0.0 : Float)

/-- An embedding backend that always returns one well-dimensioned vector. -/
def goodEmb : EmbedBackend := ⟨fun _ => [vec3072]⟩

/-- An embedding backend whose vectors have the wrong dimension (2 ≠ 3072). -/
def badEmb : EmbedBackend := ⟨fun _ => [List.replicate 2 (0.0 : Float)]⟩

/-- A stand-in for the md5 digest: any function `String → String` fits the
model; the identity keeps distinct short contents distinct. -/
def idHash : String → String := fun s => s

def exDocA : WebDoc := ⟨"uA", "tA", "aa", "dA"⟩

def exDocB : WebDoc := ⟨"uB", "tB", "bb", "dB"⟩

/-- The empty cache. -/
def st0 : CacheState := ⟨[], []⟩

/-- The cache state after inserting `exDocA` into the empty cache. -/
def st1A : CacheState := ⟨[⟨"aa", "uA", "tA", 0, "q", "aa"⟩], [vec3072]⟩

/-! ## Documents flowing through the workflow

The graph state's `documents` list mixes three Python shapes: raw MongoDB
dicts returned by the cache-hit path of `web_search`, dicts built by
`load_url`, and langchain `Document` objects from the vectorstore retriever.
The source reads their text through `doc.get('content', '')` for dicts and
`doc.page_content` for objects; both agree with `ragContent` below on every
document the pipeline constructs. -/

inductive RagDoc where
  | cached (d : StoredDoc)
  | fetched (d : WebDoc)
  | docObj (page_content : String) (source : String)
deriving Repr, DecidableEq

/-- The text of a document as read by the grading and generation code. -/
def ragContent : RagDoc → String
  | .cached d => d.page_content
  | .fetched d => d.content
  | .docObj pc _ => pc

/-- `doc.metadata.get('source', '')` / the url of a fetched page. -/
def ragSource : RagDoc → String
  | .cached d => d.source
  | .fetched d => d.url
  | .docObj _ s => s

/-! ## Router (`router.py`)

`route_query` wraps one LLM classification call in two `try` layers: an
outer one for the call itself and an inner one for JSON parsing.  The
outcome of call-plus-parse is the input `LlmJsonOutcome`; JSON object fields
are modelled as a string-keyed association list of strings. -/

inductive LlmJsonOutcome where
  | throws (msg : String)
  | malformed (raw : String)
  | parsed (fields : List (String × String))
deriving Repr, DecidableEq

/-- Python `dict.get(k, dflt)` over an association list. -/
def jsonGetD (fields : List (String × String)) (k : String) (dflt : String) : String :=
  match fields with
  | [] => dflt
  | (k2, v) :: rest => if k2 == k then v else jsonGetD rest k dflt

/-- Python `k in dict`. -/
def jsonHas (fields : List (String × String)) (k : String) : Bool :=
  fields.any (fun kv => kv.1 == k)

/-- The dict returned by `ReasoningRouter.route_query`. -/
structure RouteDecision where
  datasource : String
  explanation : String
deriving Repr, DecidableEq

/-- `ReasoningRouter.route_query`: a raised classification call and a
malformed JSON response both default to `websearch`; a parsed response with
an `original_content` key routes to `generate`; a `datasource` outside
`{websearch, vectorstore}` defaults to `websearch`. -/
def route_query : LlmJsonOutcome → RouteDecision
  | .throws msg =>
    ⟨"websearch", "Defaulting to websearch due to error: " ++ msg⟩
  | .malformed _ =>
    ⟨"websearch", "Defaulting to websearch due to parsing error"⟩
  | .parsed fields =>
    let datasource := pyLower (jsonGetD fields "datasource" "")
    if jsonHas fields "original_content" then
      ⟨"generate", "Processing pre-provided content from agent"⟩
    else if !(datasource == "websearch") && !(datasource == "vectorstore") then
      ⟨"websearch", jsonGetD fields "explanation" "No explanation provided"⟩
    else
      ⟨datasource, jsonGetD fields "explanation" "No explanation provided"⟩

/-- Python `==` between the dict returned by `route_query` and a string:
`ThoughtProcessNodes.route_question` evaluates `result == "websearch"`
where `result` is the dict `route_query` returned; in Python a dict never
equals a str, so this comparison is `False` for every decision. -/
def dictEqStr (_result : RouteDecision) (_s : String) : Bool := false

/-! ## Workflow state (`control_flow.py` `NewsState`)

Only the keys declared in the `NewsState` TypedDict survive a LangGraph run;
`max_retries`, `loop_step` and `result` are not among them, so the graph
state carries no retry counters.  `from_agent` is likewise undeclared and is
read with `state.get`, hence effectively always absent (`false`) inside the
compiled graph; it is kept as a field so `route_question`'s agent branch can
be stated. -/

/-- What the `generate` node stores under the `generation` key: the dict
returned by `generate_answer` (`{"generation": ..., "documents": ...}`). -/
structure GenOut where
  generation : String
  documents : List RagDoc
deriving Repr, DecidableEq

/-- The parsed AI-news analysis dict (`is_relevant` / `category`), with
`.get` defaults `""` and `[]` applied at construction. -/
structure Analysis where
  is_relevant : String
  category : List String
deriving Repr, DecidableEq

structure GState where
  question : String
  web_search : String
  documents : List RagDoc
  generation : Option GenOut
  context : String
  sources : List String
  ai_news_analysis : Analysis
  original_content : String
  is_relevant_ai_news : Bool
  ai_categories : List String
  technical_summary : String
  twitter_post : String
  processed : Bool
  posted_to_twitter : Bool
  from_agent : Bool
deriving Repr, DecidableEq

/-- `ThoughtProcessNodes.route_question`: agent-provided content short-cuts
with `web_search = "No"`; otherwise the router is consulted and its dict
result is compared against the STRING `"websearch"` — a comparison that is
always `False` in Python — so `web_search` is set to `"No"` in every case.
The node's own `except` (also yielding `"No"`) is unreachable because
`route_query` catches all of its exceptions internally. -/
def route_question (outcome : LlmJsonOutcome) (state : GState) : GState :=
  if state.from_agent then
    { state with web_search := "No" }
  else
    let result := route_query outcome
    { state with web_search := if dictEqStr result "websearch" then "Yes" else "No" }

/-! ## Generator (`generate.py` and the `generate` node) -/

def refusalAnswer : String :=
  "I couldn't find any relevant information to answer your question."

/-- `generate_answer`: with documents present, build the context/prompt and
invoke the generation capability once; with no documents, return the fixed
refusal without any capability call.  The second component counts the
capability invocations of the call (0 or 1).  `str(doc)` for dict-shaped
documents is abstracted to the document's text (`ragContent`); the prompt's
literal scaffolding is reproduced from the f-string. -/
def generate_answer (cap : String → Except String String) (question : String)
    (documents : List RagDoc) : Except String GenOut × Nat :=
  if documents.isEmpty then
    (.ok ⟨refusalAnswer, []⟩, 0)
  else
    let context := String.intercalate "\n\n"
      (documents.enum.map (fun p =>
        "Document " ++ toString (p.1 + 1) ++ ":\n" ++ ragContent p.2))
    let prompt := "\n            Context: " ++ context ++
      "\n            \n            Question: " ++ question ++
      "\n            \n            Please provide a detailed answer based on the context above.\n            "
    match cap prompt with
    | .ok response => (.ok ⟨response, documents⟩, 1)
    | .error e => (.error e, 1)

/-- The `generate` node: returns the partial update `{"generation": ...}`
(merged into the state), and RE-RAISES any failure of `generate_answer`
(`except Exception: ...; raise`). -/
def generate_node (cap : String → Except String String) (state : GState) :
    Except String GState :=
  match generate_answer cap state.question state.documents with
  | (.ok g, _) => .ok { state with generation := some g }
  | (.error e, _) => .error e

/-! ## Document grading (`grade_documents` node and its conditional edge) -/

def techKeywords : List String :=
  ["faiss", "vector", "index", "search", "similarity", "embedding"]

/-- The per-document body of the grading loop: the keyword fast path marks a
document relevant without an LLM call when both the question and the
document mention a technical keyword; otherwise the LLM is asked
(`llm question content[:1000]`) and the document is relevant iff the
lowercased, stripped response contains `"yes"`. -/
def isRelevantDoc (llm : String → String → String) (question : String)
    (doc : RagDoc) : Bool :=
  let content := ragContent doc
  let questionLower := pyLower question
  if techKeywords.any (fun k => strContains questionLower k) &&
      techKeywords.any (fun k => strContains (pyLower content) k) then
    true
  else
    let grade := pyStrip (pyLower (llm question (pySlice content 1000)))
    strContains grade "yes"

/-- `ThoughtProcessNodes.grade_documents`: an empty documents list returns
the state untouched; otherwise, when at least one document is relevant the
state's documents are replaced by the relevant ones and the context is
rebuilt from them, but when ZERO documents are relevant the state — with its
original unfiltered documents — is returned unchanged. -/
def grade_documents (llm : String → String → String) (state : GState) : GState :=
  if state.documents.isEmpty then state
  else
    let relevant := state.documents.filter (isRelevantDoc llm state.question)
    if relevant.isEmpty then state
    else
      { state with
          documents := relevant
          context := String.intercalate "\n\n" (relevant.map ragContent) }

/-- The conditional edge out of `grade_documents` in `control_flow.py`:
`"generate" if x.get("documents") else "web_search_node"`. -/
def gradeDocsDecision (s : GState) : String :=
  if s.documents.isEmpty then "web_search_node" else "generate"

/-- The conditional edge out of `route_question` in `control_flow.py`. -/
def routeDecisionEdge (s : GState) : String :=
  if !(s.original_content == "") && s.is_relevant_ai_news then "process_ai_news"
  else if !(s.original_content == "") then "generate"
  else if s.web_search == "Yes" then "web_search_node"
  else "vectorstore"

/-- The conditional edge out of `analyze_ai_news` in `control_flow.py`. -/
def analyzeDecisionEdge (s : GState) : String :=
  if s.is_relevant_ai_news then "process_ai_news" else "end"

/-! ## Grounding grading (`hallucination_grader.py`,
`grade_generation_v_documents_and_question`)

`grade_generation_v_documents_and_question` is DEFINED in
`rag_main_workflow.py` but wired into no graph: `control_flow.py` never adds
it as a node.  It is embedded here stand-alone.  Its state (`GraphState` of
`graph_state.py`) carries `loop_step`/`max_retries`, read with
`state.get("loop_step", 1)` and `state["max_retries"]` — the latter raising
`KeyError` (caught by the node's `except`) when absent. -/

inductive GraderOutcome where
  | throws (msg : String)
  | malformed (raw : String)
  | parsed (fields : List (String × String))
deriving Repr, DecidableEq

/-- `grade_hallucination`: catches every failure of the grading call and of
JSON parsing (including a missing `binary_score` key, which raises at the
logging line inside its own `try`), returning the default not-grounded
grade; a parsed grade containing `binary_score` is returned as-is. -/
def grade_hallucination : GraderOutcome → List (String × String)
  | .throws msg =>
    [("binary_score", "no"), ("explanation", "Error during grading: " ++ msg)]
  | .malformed msg =>
    [("binary_score", "no"), ("explanation", "Error during grading: " ++ msg)]
  | .parsed fields =>
    if jsonHas fields "binary_score" then fields
    else [("binary_score", "no"), ("explanation", "Error during grading: KeyError")]

structure RetryState where
  question : String
  generation : Option GenOut
  loop_step : Option Nat
  max_retries : Option Nat
  documents : List RagDoc
  result : Option String
deriving Repr, DecidableEq

/-- `grade_generation_v_documents_and_question`: on a not-grounded grade it
returns `result = "max retries"` when `loop_step >= max_retries` and
`result = "not useful"` otherwise, WITHOUT changing `loop_step` and without
transferring control anywhere; a missing `max_retries` key raises `KeyError`
into the node's `except`, yielding `"not useful"`.  On a grounded grade the
explanation is logged (`KeyError` → `except` → `"not useful"` when absent)
and `result = "useful"` is returned. -/
def grade_generation (grader : GraderOutcome) (st : RetryState) : RetryState :=
  let grade := grade_hallucination grader
  if jsonGetD grade "binary_score" "" == "no" then
    match st.max_retries with
    | none => { st with result := some "not useful" }
    | some maxr =>
      if st.loop_step.getD 1 ≥ maxr then { st with result := some "max retries" }
      else { st with result := some "not useful" }
  else
    if jsonHas grade "explanation" then { st with result := some "useful" }
    else { st with result := some "not useful" }

/-! ## Web search (`websearch.py`) -/

structure SearchResult where
  url : String
  title : String
  content : String
deriving Repr, DecidableEq

/-- The network capabilities of the web fetcher: the search-results tool
(which can raise), the page fetch (`None` models a failed or non-200 fetch)
and the BeautifulSoup text extraction. -/
structure WebCaps where
  searchTool : String → Except String (List SearchResult)
  fetch : String → Option String
  extract : String → String

/-- `load_url`: fetch the result's url; an empty or failed fetch yields
`None`; otherwise the page becomes a document dict with the extracted
text. -/
def load_url (caps : WebCaps) (r : SearchResult) : Option WebDoc :=
  match caps.fetch r.url with
  | none => none
  | some content =>
    if content == "" then none
    else some ⟨r.url, r.title, caps.extract content, r.content⟩

/-- The outcome of one `web_search` call, with counters for the
search-results capability and the page fetches. -/
structure WebSearchRet where
  documents : List RagDoc
  web_search : String
  searchCalls : Nat
  fetchCalls : Nat
  cache : CacheState

/-- `web_search`: hash the raw question text with md5 and look for stored
documents tagged with that `query_hash`; on a hit, return them with NO
search call and NO fetch; on a miss, call the search tool once, fetch every
result concurrently (one fetch per result), drop failures, cache whatever
loaded, and return the loaded documents.  A raised search tool is caught by
the function's own `except`, which returns no documents and
`web_search = "Yes"`. -/
def web_search_fn (md5 : String → String) (m : EmbedBackend) (caps : WebCaps)
    (question : String) (st : CacheState) : WebSearchRet :=
  let query_hash := md5 question
  let cached := st.store.filter (fun d => d.query_hash == query_hash)
  if !cached.isEmpty then
    ⟨cached.map .cached, "Yes", 0, 0, st⟩
  else
    match caps.searchTool question with
    | .error _ => ⟨[], "Yes", 1, 0, st⟩
    | .ok results =>
      let documents := (results.map (load_url caps)).filterMap id
      if documents.isEmpty then
        ⟨[], "Yes", 1, results.length, st⟩
      else
        let r := cache_web_results md5 m documents question st
        ⟨documents.map .fetched, "Yes", 1, results.length, r.2⟩

/-! ## Vectorstore retrieval (`retrieval_grader.py` `retrieve`) -/

/-- The partial update returned by `retrieve`. -/
structure RetrieveOut where
  context : String
  sources : List String
  documents : List RagDoc
deriving Repr, DecidableEq

/-- `retrieve` (imported as `graded_retrieve`): fetch k documents from the
vectorstore (capability `retrieveDocs`), grade each with one JSON LLM call
(`retrGrade`, covering the call, the JSON parse and the `binary_score`
lookup — any failure aborts the whole `try`), keep those graded exactly
`"yes"`, and return the formatted context, sources and filtered documents;
any exception yields the empty default update. -/
def graded_retrieve (retrieveDocs : Except String (List RagDoc))
    (retrGrade : String → String → Except String String) (question : String) : RetrieveOut :=
  match retrieveDocs with
  | .error _ => ⟨"", [], []⟩
  | .ok docs =>
    match docs.mapM (fun d => (retrGrade question (ragContent d)).map (fun g => (d, g))) with
    | .error _ => ⟨"", [], []⟩
    | .ok pairs =>
      let filtered := (pairs.filter (fun p => pyLower p.2 == "yes")).map (fun p => p.1)
      ⟨String.intercalate "\n\n"
          (filtered.enum.map (fun p =>
            "Document " ++ toString (p.1 + 1) ++ ":\n" ++ ragContent p.2)),
        filtered.map ragSource, filtered⟩

/-! ## AI-news analysis and processing nodes -/

/-- Outcome of `route_ai_news_query`'s classification call; a parsed JSON
object is carried as its `is_relevant`/`category` fields. -/
inductive NewsOutcome where
  | throws (msg : String)
  | malformed (raw : String)
  | parsed (a : Analysis)
deriving Repr, DecidableEq

/-- `ReasoningRouter.route_ai_news_query`: any failure defaults to
not-relevant with no categories. -/
def route_ai_news : NewsOutcome → Analysis
  | .throws _ => ⟨"no", []⟩
  | .malformed _ => ⟨"no", []⟩
  | .parsed a => a

/-- `analyze_ai_news` node. -/
def analyze_node (newsOutcome : NewsOutcome) (st : GState) : GState :=
  let news_content := match st.generation with
    | some g => g.generation
    | none => ""
  let analysis := route_ai_news newsOutcome
  { st with
      ai_news_analysis := analysis
      original_content := news_content
      is_relevant_ai_news := analysis.is_relevant == "yes"
      ai_categories := analysis.category }

/-- `process_ai_news_content` node: `summary` aggregates the JSON LLM call
and its field validations (error for any raise/parse/validation failure);
`tweet` is the Twitter post call, with `""` modelling a falsy tweet id. -/
def process_node (summary : Except String (String × String))
    (tweet : Except String String) (st : GState) : GState :=
  if !st.is_relevant_ai_news then st
  else
    match summary with
    | .error _ =>
      { st with
          technical_summary := "Error processing content"
          twitter_post := "Error creating post"
          processed := false
          posted_to_twitter := false }
    | .ok (tech, post) =>
      let post := if post.length > 250 then post.take 247 ++ "..." else post
      match tweet with
      | .ok tweet_id =>
        { st with
            technical_summary := tech
            twitter_post := post
            processed := true
            posted_to_twitter := !(tweet_id == "") }
      | .error _ =>
        { st with
            technical_summary := tech
            twitter_post := post
            processed := true
            posted_to_twitter := false }

/-! ## The compiled graph (`control_flow.py`)

The `StateGraph` built in `control_flow.py` wires exactly seven nodes:
`route_question`, `vectorstore`, `web_search_node`, `grade_documents`,
`generate`, `analyze_ai_news`, `process_ai_news`.  Neither
`grade_generation_v_documents_and_question` nor `grade_generated_answer`
is added, so the compiled workflow has no grounding-grading step and no
retry loop.  A run threads the graph state together with the shared cache
state; `run` is fuel-indexed and counts executions of the `generate`
node. -/

inductive NodeName where
  | route_question
  | vectorstore
  | web_search_node
  | grade_documents
  | generate
  | analyze_ai_news
  | process_ai_news
deriving Repr, DecidableEq

/-- All external capability outcomes of one run. -/
structure Oracle where
  routeOutcome : LlmJsonOutcome
  retrieveDocs : Except String (List RagDoc)
  retrGrade : String → String → Except String String
  docGrade : String → String → String
  genCap : String → Except String String
  newsOutcome : NewsOutcome
  summary : Except String (String × String)
  tweet : Except String String
  caps : WebCaps
  md5 : String → String
  emb : EmbedBackend

/-- Apply one node to the (graph state, cache state) pair.  Only the
`generate` node can raise out of the engine. -/
def nodeApply (o : Oracle) : NodeName → GState × CacheState → Except String (GState × CacheState)
  | .route_question, (s, c) => .ok (route_question o.routeOutcome s, c)
  | .vectorstore, (s, c) =>
    let r := graded_retrieve o.retrieveDocs o.retrGrade s.question
    .ok ({ s with context := r.context, sources := r.sources, documents := r.documents }, c)
  | .web_search_node, (s, c) =>
    let r := web_search_fn o.md5 o.emb o.caps s.question c
    .ok ({ s with documents := r.documents, web_search := "Yes" }, r.cache)
  | .grade_documents, (s, c) => .ok (grade_documents o.docGrade s, c)
  | .generate, (s, c) =>
    match generate_node o.genCap s with
    | .ok s2 => .ok (s2, c)
    | .error e => .error e
  | .analyze_ai_news, (s, c) => .ok (analyze_node o.newsOutcome s, c)
  | .process_ai_news, (s, c) => .ok (process_node o.summary o.tweet s, c)

/-- The transition table of `control_flow.py`: conditional edges evaluate
their lambda on the node's output state; `none` is `END`. -/
def nextNode : NodeName → GState → Option NodeName
  | .route_question, s =>
    if routeDecisionEdge s == "process_ai_news" then some .process_ai_news
    else if routeDecisionEdge s == "generate" then some .generate
    else if routeDecisionEdge s == "web_search_node" then some .web_search_node
    else some .vectorstore
  | .vectorstore, _ => some .grade_documents
  | .web_search_node, _ => some .grade_documents
  | .grade_documents, s =>
    if gradeDocsDecision s == "generate" then some .generate else some .web_search_node
  | .generate, _ => some .analyze_ai_news
  | .analyze_ai_news, s =>
    if analyzeDecisionEdge s == "process_ai_news" then some .process_ai_news else none
  | .process_ai_news, _ => none

inductive RunOutcome where
  | finished (s : GState) (c : CacheState)
  | raised (e : String)
  | outOfFuel

/-- Did the run reach `END`? -/
def RunOutcome.isFinished : RunOutcome → Bool
  | .finished _ _ => true
  | _ => false

structure RunResult where
  genCount : Nat
  outcome : RunOutcome

/-- Execute the graph from node `n`, counting `generate` executions. -/
def run (o : Oracle) : Nat → NodeName → GState × CacheState → RunResult
  | 0, _, _ => ⟨0, .outOfFuel⟩
  | fuel + 1, n, sc =>
    match nodeApply o n sc with
    | .error e => ⟨if n = .generate then 1 else 0, .raised e⟩
    | .ok sc2 =>
      match nextNode n sc2.1 with
      | none => ⟨if n = .generate then 1 else 0, .finished sc2.1 sc2.2⟩
      | some n2 =>
        let r := run o fuel n2 sc2
        ⟨(if n = .generate then 1 else 0) + r.genCount, r.outcome⟩

/-! ### Concrete workflow instances for counterexamples and witnesses -/

/-- A plain initial graph state, as built by the chat endpoint (the
`max_retries`/`loop_step` inputs it passes are dropped by the `NewsState`
TypedDict and so do not appear). -/
def gs0 : GState :=
  { question := "q"
    web_search := "No"
    documents := []
    generation := none
    context := ""
    sources := []
    ai_news_analysis := ⟨"no", []⟩
    original_content := ""
    is_relevant_ai_news := false
    ai_categories := []
    technical_summary := ""
    twitter_post := ""
    processed := false
    posted_to_twitter := false
    from_agent := false }

/-- A state holding one retrieved document. -/
def gs1 : GState := { gs0 with documents := [.docObj "faiss doc" "src1"] }

/-- A non-technical question with one non-technical document. -/
def gsDoc : GState :=
  { gs0 with
      question := "what color is the sky"
      documents := [.docObj "the sky is blue" "s1"] }

/-- An LLM grader that always answers `"no"`. -/
def noLlm : String → String → String := fun _ _ => "no"

/-- Capabilities whose search tool raises. -/
def failCaps : WebCaps := ⟨fun _ => .error "network down", fun _ => none, fun s => s⟩

/-- Working capabilities: one search result whose page fetch succeeds. -/
def okCaps : WebCaps :=
  ⟨fun _ => .ok [⟨"u1", "t1", "snippet"⟩], fun _ => some "faiss page text", fun s => s⟩

/-- A store holding one document tagged with the query hash of `"q"`
(`idHash "q" = "q"`). -/
def stW : CacheState := ⟨[⟨"cached text", "uW", "tW", 0, "q", "cached text"⟩], []⟩

/-- The oracle of the concrete end-to-end run: the router answers
`websearch`, the vectorstore is empty, the web search fetches one page, all
graders answer yes, generation succeeds, and the news analysis is
not-relevant. -/
def oracle0 : Oracle :=
  { routeOutcome := .parsed [("datasource", "websearch"), ("explanation", "news")]
    retrieveDocs := .ok []
    retrGrade := fun _ _ => .ok "yes"
    docGrade := fun _ _ => "yes"
    genCap := fun _ => .ok "An answer grounded in the page."
    newsOutcome := .parsed ⟨"no", []⟩
    summary := .error "unused"
    tweet := .error "unused"
    caps := okCaps
    md5 := idHash
    emb := badEmb }

/-! ### Path lemmas for `embed_query` and `cache_web_results` -/

theorem vec3072_length : vec3072.length = 3072 := by
  simp only [vec3072, List.length_cons, List.length_replicate]

/-- Success path of `embed_query` on a list input, driven by hypotheses so
that no 3072-element list is ever reduced. -/
theorem embed_query_list_ok (m : EmbedBackend) (ts : List String) (t : String)
    (v : List Float) (rest : List (List Float))
    (htext : cleanText (String.intercalate " " ts) = t)
    (ht : (t == "") = false)
    (hm : m.embedDocuments [t] = v :: rest)
    (hv : v.isEmpty = false)
    (hlen : v.length = 3072) :
    embed_query m (.ofList ts) = .ok v := by
  simp [embed_query, joinInput, htext, ht, hm, hv, hlen, expectedDim]

/-- Success path of `cache_web_results`: if the per-document loop produced a
nonempty batch and embedding the batch succeeds with vector `v`, the call
returns `True`, the store is the loop's store, and exactly one row `v` is
appended to the index. -/
theorem cache_ok_path (md5 : String → String) (m : EmbedBackend)
    (documents : List WebDoc) (query : String) (st : CacheState)
    (s : List StoredDoc) (ts : List String) (v : List Float)
    (hloop : cacheLoop md5 (md5 query) st.index.length documents st.store [] = (s, ts))
    (hne : ts.isEmpty = false)
    (hemb : embed_query m (.ofList ts) = .ok v) :
    cache_web_results md5 m documents query st = (true, ⟨s, st.index ++ [v]⟩) := by
  simp [cache_web_results, hloop, hne, hemb]

/-- Failure path of `cache_web_results`: if embedding the nonempty batch
fails, the call returns `False` and the index is untouched, while the store
keeps everything the loop inserted. -/
theorem cache_err_path (md5 : String → String) (m : EmbedBackend)
    (documents : List WebDoc) (query : String) (st : CacheState)
    (s : List StoredDoc) (ts : List String) (e : String)
    (hloop : cacheLoop md5 (md5 query) st.index.length documents st.store [] = (s, ts))
    (hne : ts.isEmpty = false)
    (hemb : embed_query m (.ofList ts) = .error e) :
    cache_web_results md5 m documents query st = (false, ⟨s, st.index⟩) := by
  simp [cache_web_results, hloop, hne, hemb]

/-- The per-document loop only ever appends to the store. -/
theorem cacheLoop_store_extend (md5 : String → String) (qh : String) (ci : Nat) :
    ∀ (docs : List WebDoc) (store : List StoredDoc) (acc : List String),
    ∃ tail, (cacheLoop md5 qh ci docs store acc).1 = store ++ tail := by
  intro docs
  induction docs with
  | nil =>
    intro store acc
    exact ⟨[], by simp [cacheLoop]⟩
  | cons d rest ih =>
    intro store acc
    by_cases h : store.any (fun s => s.content_hash == md5 d.content) = true
    · simpa [cacheLoop, h] using ih store acc
    · have h2 : store.any (fun s => s.content_hash == md5 d.content) = false := by
        simpa using h
      obtain ⟨tail, ht⟩ := ih (store ++
        [{ page_content := d.content
           source := d.url
           title := d.title
           embedding_index := ci + acc.length
           query_hash := qh
           content_hash := md5 d.content }]) (acc ++ [d.content])
      refine ⟨{ page_content := d.content
                source := d.url
                title := d.title
                embedding_index := ci + acc.length
                query_hash := qh
                content_hash := md5 d.content } :: tail, ?_⟩
      rw [cacheLoop]
      simp [h2, ht]

/-- Skip path: a single document whose content hash is already present in the
store is skipped entirely, and the call returns `True` with the cache state
unchanged. -/
theorem cache_skip_single (md5 : String → String) (m : EmbedBackend)
    (query : String) (st : CacheState) (doc : WebDoc)
    (h : st.store.any (fun s => s.content_hash == md5 doc.content) = true) :
    cache_web_results md5 m [doc] query st = (true, st) := by
  simp [cache_web_results, cacheLoop, h]

/-! ### Claim theorems for the cache -/

/-- Claim C2 (code_bug, evaluation at the failing input): one
`cache_web_results` call storing two new documents on the empty cache inserts
two documents whose `embedding_index` metadata is 0 and 1, yet appends only a
single vector to the index — `embed_query` joins the batch into one string —
so the index has 1 row while the store has 2 documents, violating the
one-vector-per-document correspondence the claim states. -/
theorem c2_two_new_docs_one_index_row :
    (cache_web_results idHash goodEmb [exDocA, exDocB] "q" st0).1 = true ∧
    (cache_web_results idHash goodEmb [exDocA, exDocB] "q" st0).2.store.length = 2 ∧
    (cache_web_results idHash goodEmb [exDocA, exDocB] "q" st0).2.store.map
      (fun d => d.embedding_index) = [0, 1] ∧
    (cache_web_results idHash goodEmb [exDocA, exDocB] "q" st0).2.index.length = 1 ∧
    (cache_web_results idHash goodEmb [exDocA, exDocB] "q" st0).2.index.length ≠
      (cache_web_results idHash goodEmb [exDocA, exDocB] "q" st0).2.store.length := by
  have hemb : embed_query goodEmb (.ofList ["aa", "bb"]) = .ok vec3072 :=
    embed_query_list_ok goodEmb ["aa", "bb"] "aa bb" vec3072 [] rfl rfl rfl rfl vec3072_length
  have hloop : cacheLoop idHash "q" 0 [exDocA, exDocB] [] [] =
      ([⟨"aa", "uA", "tA", 0, "q", "aa"⟩, ⟨"bb", "uB", "tB", 1, "q", "bb"⟩], ["aa", "bb"]) := by
    decide
  have h := cache_ok_path idHash goodEmb [exDocA, exDocB] "q" st0 _ _ _ hloop rfl hemb
  rw [h]
  exact ⟨rfl, rfl, rfl, rfl, by decide⟩

/-- Claim C5 counterexample: `cache_web_results` returns a success Boolean,
not the ordinal.  Inserting `exDocA` twice yields one stored document (with
`embedding_index` 0) and one index row, and the call returns `True` both
times; read numerically the way Python reads `True` (as 1), the return value
differs from the stored ordinal 0, so the call does not return the ordinal. -/
theorem c5_counterexample :
    cache_web_results idHash goodEmb [exDocA] "q" st0 = (true, st1A) ∧
    cache_web_results idHash goodEmb [exDocA] "q" st1A = (true, st1A) ∧
    st1A.store.map (fun d => d.embedding_index) = [0] ∧
    st1A.store.length = 1 ∧ st1A.index.length = 1 ∧
    (cache_web_results idHash goodEmb [exDocA] "q" st0).1.toNat = 1 ∧
    st1A.store.head?.map (fun d => d.embedding_index) = some 0 ∧
    (cache_web_results idHash goodEmb [exDocA] "q" st0).1.toNat ≠ 0 := by
  have hemb : embed_query goodEmb (.ofList ["aa"]) = .ok vec3072 :=
    embed_query_list_ok goodEmb ["aa"] "aa" vec3072 [] rfl rfl rfl rfl vec3072_length
  have hloop : cacheLoop idHash "q" 0 [exDocA] [] [] =
      ([⟨"aa", "uA", "tA", 0, "q", "aa"⟩], ["aa"]) := by decide
  have h1 : cache_web_results idHash goodEmb [exDocA] "q" st0 = (true, st1A) := by
    have := cache_ok_path idHash goodEmb [exDocA] "q" st0 _ _ _ hloop rfl hemb
    exact this
  have h2 := cache_skip_single idHash goodEmb "q" st1A exDocA (by decide)
  refine ⟨h1, h2, rfl, rfl, rfl, ?_, rfl, ?_⟩
  · rw [h1]; rfl
  · rw [h1]; decide

/-- Claim C5 (corrected, amended): inserting a document whose content hash is
already present performs no store write and no index append — the call
returns `True` (the same success flag as the first insertion, not an
ordinal) and leaves the cache state exactly unchanged. -/
theorem c5_idempotent_insert (md5 : String → String) (m : EmbedBackend)
    (query : String) (st : CacheState) (doc : WebDoc)
    (h : st.store.any (fun s => s.content_hash == md5 doc.content) = true) :
    cache_web_results md5 m [doc] query st = (true, st) := by
  simp [cache_web_results, cacheLoop, h]

/-- Witness for `c5_idempotent_insert` at a concrete duplicate insertion. -/
theorem c5_witness :
    (st1A.store.any (fun s => s.content_hash == idHash exDocA.content) = true) ∧
    cache_web_results idHash goodEmb [exDocA] "q" st1A = (true, st1A) :=
  ⟨by decide, c5_idempotent_insert idHash goodEmb "q" st1A exDocA (by decide)⟩

/-- Claim C7 counterexample: a wrong-dimension embedding (length 2 ≠ 3072)
makes the insertion return `False` with the index untouched, but the document
written earlier in the same attempt REMAINS in the store — the store is not
left unchanged as the claim states. -/
theorem c7_counterexample :
    (cache_web_results idHash badEmb [exDocA] "q" st0).1 = false ∧
    (cache_web_results idHash badEmb [exDocA] "q" st0).2.index = [] ∧
    (cache_web_results idHash badEmb [exDocA] "q" st0).2.store.length = 1 ∧
    (cache_web_results idHash badEmb [exDocA] "q" st0).2.store ≠ st0.store := by
  exact ⟨rfl, rfl, rfl, by decide⟩

/-- Claim C7 (corrected, amended): if embedding the batch of new texts fails
(wrong dimension or any embedding error), the insertion attempt returns
`False` and leaves the vector index unchanged, but the documents inserted by
the per-document loop in that attempt remain in the store (the store is the
old store plus a tail of newly written documents). -/
theorem c7_dim_guard (md5 : String → String) (m : EmbedBackend)
    (docs : List WebDoc) (q : String) (st : CacheState)
    (s : List StoredDoc) (ts : List String) (e : String)
    (hloop : cacheLoop md5 (md5 q) st.index.length docs st.store [] = (s, ts))
    (hne : ts.isEmpty = false)
    (hemb : embed_query m (.ofList ts) = .error e) :
    cache_web_results md5 m docs q st = (false, ⟨s, st.index⟩) ∧
    ∃ tail, s = st.store ++ tail := by
  constructor
  · simp [cache_web_results, hloop, hne, hemb]
  · obtain ⟨tail, ht⟩ := cacheLoop_store_extend md5 (md5 q) st.index.length docs st.store []
    rw [hloop] at ht
    exact ⟨tail, ht⟩

/-- Witness for `c7_dim_guard` at the concrete wrong-dimension insertion. -/
theorem c7_witness :
    (cacheLoop idHash "q" 0 [exDocA] [] [] = ([⟨"aa", "uA", "tA", 0, "q", "aa"⟩], ["aa"])) ∧
    ((["aa"] : List String).isEmpty = false) ∧
    (embed_query badEmb (.ofList ["aa"]) = .error "Unexpected embedding dimension") ∧
    (cache_web_results idHash badEmb [exDocA] "q" st0 =
        (false, ⟨[⟨"aa", "uA", "tA", 0, "q", "aa"⟩], []⟩) ∧
      ∃ tail, [(⟨"aa", "uA", "tA", 0, "q", "aa"⟩ : StoredDoc)] = st0.store ++ tail) :=
  ⟨by decide, rfl, rfl,
    c7_dim_guard idHash badEmb [exDocA] "q" st0
      [⟨"aa", "uA", "tA", 0, "q", "aa"⟩] ["aa"] "Unexpected embedding dimension"
      (by decide) rfl rfl⟩

/-- Claim C10 (confirmed): `embed_query` on a nonempty list input joins the
elements with single spaces and computes exactly what it computes on that one
joined string; a successful result is a single vector of the configured
dimension; consequently `cache_web_results`, which embeds the whole batch in
one call, grows the index by at most one row per call, however many documents
it stores. -/
theorem c10_batch_is_single_vector (m : EmbedBackend) (ts : List String)
    (_hts : ts ≠ []) :
    embed_query m (.ofList ts) = embed_query m (.ofStr (String.intercalate " " ts)) ∧
    (∀ v, embed_query m (.ofList ts) = .ok v → v.length = expectedDim) ∧
    (∀ (md5 : String → String) (docs : List WebDoc) (q : String) (st : CacheState),
      (cache_web_results md5 m docs q st).2.index.length ≤ st.index.length + 1) := by
  refine ⟨rfl, ?_, ?_⟩
  · intro v h
    simp only [embed_query] at h
    split at h
    · simp at h
    · split at h
      · simp at h
      · split at h <;> simp_all [expectedDim]
  · intro md5 docs q st
    rcases hl : cacheLoop md5 (md5 q) st.index.length docs st.store [] with ⟨s, ts2⟩
    by_cases hne : ts2.isEmpty = true
    · simp [cache_web_results, hl, hne]
    · rcases he : embed_query m (.ofList ts2) with e | w
      · simp [cache_web_results, hl, hne, he]
      · simp [cache_web_results, hl, hne, he]

/-- Witness for `c10_batch_is_single_vector` at a concrete two-element batch. -/
theorem c10_witness :
    ((["aa", "bb"] : List String) ≠ []) ∧
    (embed_query goodEmb (.ofList ["aa", "bb"]) =
        embed_query goodEmb (.ofStr (String.intercalate " " ["aa", "bb"])) ∧
      (∀ v, embed_query goodEmb (.ofList ["aa", "bb"]) = .ok v → v.length = expectedDim) ∧
      (∀ (md5 : String → String) (docs : List WebDoc) (q : String) (st : CacheState),
        (cache_web_results md5 goodEmb docs q st).2.index.length ≤ st.index.length + 1)) :=
  ⟨by decide, c10_batch_is_single_vector goodEmb ["aa", "bb"] (by decide)⟩

/-! ### Claim theorems for the workflow engine, router and graders -/

/-- Every run of the compiled graph executes the `generate` node at most
once, and runs starting at `analyze_ai_news` or `process_ai_news` never
reach it: no edge of `control_flow.py` leads back from the post-generation
nodes. -/
theorem run_genCount_bound (o : Oracle) :
    ∀ (fuel : Nat) (n : NodeName) (sc : GState × CacheState),
      (run o fuel n sc).genCount ≤ 1 ∧
      ((n = .analyze_ai_news ∨ n = .process_ai_news) → (run o fuel n sc).genCount = 0) := by
  intro fuel
  induction fuel with
  | zero =>
    intro n sc
    exact ⟨Nat.zero_le 1, fun _ => rfl⟩
  | succ fuel ih =>
    intro n sc
    obtain ⟨s, c⟩ := sc
    cases n with
    | route_question =>
      refine ⟨?_, by simp⟩
      simp only [run, nodeApply]
      split
      · simp
      · rename_i n2 hn2
        simpa using (ih n2 _).1
    | vectorstore =>
      refine ⟨?_, by simp⟩
      simp only [run, nodeApply]
      split
      · simp
      · rename_i n2 hn2
        simpa using (ih n2 _).1
    | web_search_node =>
      refine ⟨?_, by simp⟩
      simp only [run, nodeApply]
      split
      · simp
      · rename_i n2 hn2
        simpa using (ih n2 _).1
    | grade_documents =>
      refine ⟨?_, by simp⟩
      simp only [run, nodeApply]
      split
      · simp
      · rename_i n2 hn2
        simpa using (ih n2 _).1
    | generate =>
      refine ⟨?_, by simp⟩
      simp only [run, nodeApply]
      rcases hg : generate_node o.genCap s with e | s2
      · simp [hg]
      · simp only [hg]
        have h0 := (ih .analyze_ai_news (s2, c)).2 (Or.inl rfl)
        simp only [nextNode]
        simp [h0]
    | analyze_ai_news =>
      have hz : (run o (fuel + 1) .analyze_ai_news (s, c)).genCount = 0 := by
        simp only [run, nodeApply, nextNode]
        by_cases hc : (analyzeDecisionEdge (analyze_node o.newsOutcome s) == "process_ai_news") = true
        · rw [if_pos hc]
          have h0 := (ih .process_ai_news (analyze_node o.newsOutcome s, c)).2 (Or.inr rfl)
          simp [h0]
        · rw [if_neg hc]
          simp
      exact ⟨by rw [hz]; exact Nat.zero_le 1, fun _ => hz⟩
    | process_ai_news =>
      have hz : (run o (fuel + 1) .process_ai_news (s, c)).genCount = 0 := by
        simp only [run, nodeApply, nextNode]
        simp
      exact ⟨by rw [hz]; exact Nat.zero_le 1, fun _ => hz⟩

/-- Claim C1 counterexample: the compiled workflow contains no
grounding-grading node, so a concrete end-to-end run (router answers
websearch, empty vectorstore, one fetched page graded relevant, successful
generation, not-relevant news analysis) reaches END after exactly ONE
generation attempt — not the 3 attempts the claim requires for
maxRetries = 2 under an always-not-grounded grader — and no
`max_retries_exceeded` result exists anywhere: the grading function itself,
invoked directly at loop_step 1, max_retries 2 with a not-grounded grade,
returns result `"not useful"` and does not return control to Generate. -/
theorem c1_counterexample :
    (run oracle0 10 .route_question (gs0, st0)).genCount = 1 ∧
    (run oracle0 10 .route_question (gs0, st0)).genCount ≠ 3 ∧
    (run oracle0 10 .route_question (gs0, st0)).outcome.isFinished = true ∧
    grade_generation (.parsed [("binary_score", "no"), ("explanation", "ungrounded")])
        ⟨"q", none, some 1, some 2, [], none⟩ =
      ⟨"q", none, some 1, some 2, [], some "not useful"⟩ :=
  ⟨by decide, by decide, by decide, by decide⟩

/-- Claim C1 (corrected, amended): the compiled workflow wires no
grounding-grading node and has no retry loop — every run performs at most
one generation attempt (so the `maxRetries + 1` bound holds trivially, but
an always-not-grounded grader yields 1 attempt, not `maxRetries + 1`); the
grading function `grade_generation_v_documents_and_question`, which is
defined but not wired, never increments `loop_step` and, when the grader
answers not grounded, returns result `"max retries"` (not
`"max_retries_exceeded"`) if `loop_step ≥ max_retries` and
`"not useful"` otherwise. -/
theorem c1_no_retry_loop :
    (∀ (o : Oracle) (fuel : Nat) (n : NodeName) (sc : GState × CacheState),
      (run o fuel n sc).genCount ≤ 1) ∧
    (∀ (g : GraderOutcome) (st : RetryState) (maxr : Nat),
      st.max_retries = some maxr →
      (jsonGetD (grade_hallucination g) "binary_score" "" == "no") = true →
      ((st.loop_step.getD 1 ≥ maxr →
          grade_generation g st = { st with result := some "max retries" }) ∧
        (st.loop_step.getD 1 < maxr →
          grade_generation g st = { st with result := some "not useful" }))) ∧
    (∀ (g : GraderOutcome) (st : RetryState),
      (grade_generation g st).loop_step = st.loop_step) := by
  refine ⟨fun o fuel n sc => (run_genCount_bound o fuel n sc).1, ?_, ?_⟩
  · intro g st maxr hmr hno
    constructor
    · intro hge
      simp only [grade_generation]
      rw [if_pos hno]
      simp only [hmr]
      rw [if_pos hge]
    · intro hlt
      simp only [grade_generation]
      rw [if_pos hno]
      simp only [hmr]
      rw [if_neg (by omega)]
  · intro g st
    simp only [grade_generation]
    split
    · split
      · rfl
      · split <;> rfl
    · split <;> rfl

/-- Witness for `c1_no_retry_loop` at a concrete run and concrete grading
states on both sides of the retry budget. -/
theorem c1_witness :
    (run oracle0 7 .route_question (gs0, st0)).genCount ≤ 1 ∧
    grade_generation (.parsed [("binary_score", "no"), ("explanation", "e")])
        ⟨"q", none, some 5, some 2, [], none⟩ =
      ⟨"q", none, some 5, some 2, [], some "max retries"⟩ ∧
    (grade_generation (.parsed [("binary_score", "no"), ("explanation", "e")])
        ⟨"q", none, some 1, some 2, [], none⟩).loop_step = some 1 :=
  ⟨c1_no_retry_loop.1 oracle0 7 .route_question (gs0, st0),
    (c1_no_retry_loop.2.1 (.parsed [("binary_score", "no"), ("explanation", "e")])
      ⟨"q", none, some 5, some 2, [], none⟩ 2 rfl (by decide)).1 (by decide),
    c1_no_retry_loop.2.2 (.parsed [("binary_score", "no"), ("explanation", "e")])
      ⟨"q", none, some 1, some 2, [], none⟩⟩

/-- Claim C3 (code_bug, evaluation at the failing input): `route_query`
itself defaults its `datasource` to `websearch` when the classification call
throws or returns malformed JSON, but `route_question` compares the returned
DICT against the STRING `"websearch"` — a comparison that is always `False`
in Python — so every non-agent question ends with `web_search = "No"` (the
cache-retrieval path): when the router throws, when the response is
malformed, and even when the router explicitly answers websearch. -/
theorem c3_routing_always_no :
    route_query (.throws "connection error") =
      ⟨"websearch", "Defaulting to websearch due to error: connection error"⟩ ∧
    route_query (.malformed "not json") =
      ⟨"websearch", "Defaulting to websearch due to parsing error"⟩ ∧
    (route_question (.throws "connection error") gs0).web_search = "No" ∧
    (route_question (.malformed "not json") gs0).web_search = "No" ∧
    (route_question (.parsed [("datasource", "websearch"), ("explanation", "news")])
        gs0).web_search = "No" :=
  ⟨rfl, rfl, rfl, rfl, rfl⟩

/-- Claim C4 counterexample: a state with one retrieved document that the
grader marks NOT relevant keeps its original documents list, and the
conditional edge out of `grade_documents` — which tests emptiness of the
documents list — routes to `generate`, not to `web_search_node` as the claim
requires. -/
theorem c4_counterexample :
    gsDoc.documents ≠ [] ∧
    gsDoc.documents.filter (isRelevantDoc noLlm gsDoc.question) = [] ∧
    grade_documents noLlm gsDoc = gsDoc ∧
    gradeDocsDecision (grade_documents noLlm gsDoc) = "generate" ∧
    gradeDocsDecision (grade_documents noLlm gsDoc) ≠ "web_search_node" :=
  ⟨by decide, by decide, by decide, by decide, by decide⟩

/-- Claim C4 (corrected, amended): when at least one retrieved document is
relevant, the workflow goes to `Generate` with the documents filtered to the
relevant ones; but when retrieval produced documents and ZERO are relevant,
the state keeps its original unfiltered documents and the workflow STILL
goes to `Generate` — the edge to `web_search_node` is taken only when the
documents list itself is empty (retrieval returned nothing). -/
theorem c4_grade_documents_routing (llm : String → String → String) (st : GState)
    (hne : st.documents ≠ []) :
    (st.documents.filter (isRelevantDoc llm st.question) = [] →
      grade_documents llm st = st ∧
      gradeDocsDecision (grade_documents llm st) = "generate") ∧
    (st.documents.filter (isRelevantDoc llm st.question) ≠ [] →
      (grade_documents llm st).documents =
        st.documents.filter (isRelevantDoc llm st.question) ∧
      gradeDocsDecision (grade_documents llm st) = "generate") ∧
    (∀ st2 : GState, st2.documents = [] →
      gradeDocsDecision (grade_documents llm st2) = "web_search_node") := by
  have hne2 : st.documents.isEmpty = false := by
    cases h : st.documents with
    | nil => exact absurd h hne
    | cons a l => rfl
  refine ⟨?_, ?_, ?_⟩
  · intro hfil
    have hgd : grade_documents llm st = st := by
      simp [grade_documents, hne2, hfil]
    refine ⟨hgd, ?_⟩
    rw [hgd]
    simp [gradeDocsDecision, hne2]
  · intro hfil
    have hfe : (st.documents.filter (isRelevantDoc llm st.question)).isEmpty = false := by
      cases h : st.documents.filter (isRelevantDoc llm st.question) with
      | nil => exact absurd h hfil
      | cons a l => rfl
    have hgd : grade_documents llm st =
        { st with
            documents := st.documents.filter (isRelevantDoc llm st.question)
            context := String.intercalate "\n\n"
              ((st.documents.filter (isRelevantDoc llm st.question)).map ragContent) } := by
      simp [grade_documents, hne2, hfe]
    refine ⟨by rw [hgd], ?_⟩
    rw [hgd]
    simp [gradeDocsDecision, hfe]
  · intro st2 h2
    simp [grade_documents, gradeDocsDecision, h2]

/-- Witness for `c4_grade_documents_routing` at the concrete
zero-relevant-documents state. -/
theorem c4_witness :
    gsDoc.documents ≠ [] ∧
    ((gsDoc.documents.filter (isRelevantDoc noLlm gsDoc.question) = [] →
        grade_documents noLlm gsDoc = gsDoc ∧
        gradeDocsDecision (grade_documents noLlm gsDoc) = "generate") ∧
      (gsDoc.documents.filter (isRelevantDoc noLlm gsDoc.question) ≠ [] →
        (grade_documents noLlm gsDoc).documents =
          gsDoc.documents.filter (isRelevantDoc noLlm gsDoc.question) ∧
        gradeDocsDecision (grade_documents noLlm gsDoc) = "generate") ∧
      (∀ st2 : GState, st2.documents = [] →
        gradeDocsDecision (grade_documents noLlm st2) = "web_search_node")) :=
  ⟨by decide, c4_grade_documents_routing noLlm gsDoc (by decide)⟩

/-- Claim C6 (confirmed): if any stored document carries the query hash of
the question, `web_search` returns exactly the stored documents with that
tag, makes zero search-tool calls and zero page fetches, and leaves the
cache untouched. -/
theorem c6_cache_first_web_search (md5 : String → String) (m : EmbedBackend)
    (caps : WebCaps) (question : String) (st : CacheState)
    (h : ∃ d ∈ st.store, d.query_hash = md5 question) :
    (web_search_fn md5 m caps question st).documents =
      (st.store.filter (fun d => d.query_hash == md5 question)).map RagDoc.cached ∧
    (web_search_fn md5 m caps question st).searchCalls = 0 ∧
    (web_search_fn md5 m caps question st).fetchCalls = 0 ∧
    (web_search_fn md5 m caps question st).cache = st := by
  obtain ⟨d, hd, hq⟩ := h
  have hmem : d ∈ st.store.filter (fun d => d.query_hash == md5 question) :=
    List.mem_filter.mpr ⟨hd, by simp [hq]⟩
  have hne : (st.store.filter (fun d => d.query_hash == md5 question)).isEmpty = false := by
    cases hfil : st.store.filter (fun d => d.query_hash == md5 question) with
    | nil => rw [hfil] at hmem; simp at hmem
    | cons a l => rfl
  refine ⟨?_, ?_, ?_, ?_⟩ <;> simp [web_search_fn, hne]

/-- Witness for `c6_cache_first_web_search`: a store holding one document
tagged with the question's hash, paired with capabilities that would fail if
ever invoked. -/
theorem c6_witness :
    (∃ d ∈ stW.store, d.query_hash = idHash "q") ∧
    ((web_search_fn idHash goodEmb failCaps "q" stW).documents =
        (stW.store.filter (fun d => d.query_hash == idHash "q")).map RagDoc.cached ∧
      (web_search_fn idHash goodEmb failCaps "q" stW).searchCalls = 0 ∧
      (web_search_fn idHash goodEmb failCaps "q" stW).fetchCalls = 0 ∧
      (web_search_fn idHash goodEmb failCaps "q" stW).cache = stW) :=
  ⟨⟨⟨"cached text", "uW", "tW", 0, "q", "cached text"⟩, by decide, rfl⟩,
    c6_cache_first_web_search idHash goodEmb failCaps "q" stW
      ⟨⟨"cached text", "uW", "tW", 0, "q", "cached text"⟩, by decide, rfl⟩⟩

/-- Claim C8 counterexample: the `generate` node re-raises a
generation-provider failure (`except Exception: ...; raise`), propagating
the exception out of the engine instead of degrading to a safe default. -/
theorem c8_generate_node_raises :
    generate_node (fun _ => .error "provider down") gs1 = .error "provider down" ∧
    gs1.documents ≠ [] :=
  ⟨rfl, by decide⟩

/-- Claim C8 (corrected, amended): the routing, web-search and
grounding-grading paths do catch capability failures and return safe
defaults — router failure yields `web_search = "No"` (the cache path, not
web search), a raised search tool yields no documents with
`web_search = "Yes"`, and a raised grounding grader yields the not-grounded
grade `"no"` — but the `generate` node RE-RAISES a generation-provider
failure whenever documents are present, so not every node confines its
capability failure. -/
theorem c8_failure_defaults :
    (∀ (e : String) (st : GState), st.documents ≠ [] →
      generate_node (fun _ => .error e) st = .error e) ∧
    (∀ (msg : String) (st : GState), st.from_agent = false →
      (route_question (.throws msg) st).web_search = "No") ∧
    (∀ (md5 : String → String) (m : EmbedBackend) (caps : WebCaps) (q : String)
        (st : CacheState) (e : String),
      (st.store.filter (fun d => d.query_hash == md5 q)).isEmpty = true →
      caps.searchTool q = .error e →
      web_search_fn md5 m caps q st = ⟨[], "Yes", 1, 0, st⟩) ∧
    (∀ msg : String,
      jsonGetD (grade_hallucination (.throws msg)) "binary_score" "" = "no") := by
  refine ⟨?_, ?_, ?_, fun msg => rfl⟩
  · intro e st hne
    have hne2 : st.documents.isEmpty = false := by
      cases h : st.documents with
      | nil => exact absurd h hne
      | cons a l => rfl
    simp [generate_node, generate_answer, hne2]
  · intro msg st hfa
    simp [route_question, hfa, dictEqStr]
  · intro md5 m caps q st e hfil hst
    simp [web_search_fn, hfil, hst]

/-- Witness for `c8_failure_defaults` at concrete failing capabilities. -/
theorem c8_witness :
    gs1.documents ≠ [] ∧
    generate_node (fun _ => .error "provider down") gs1 = .error "provider down" ∧
    gs0.from_agent = false ∧
    (route_question (.throws "boom") gs0).web_search = "No" ∧
    (st0.store.filter (fun d => d.query_hash == idHash "q")).isEmpty = true ∧
    failCaps.searchTool "q" = .error "network down" ∧
    web_search_fn idHash goodEmb failCaps "q" st0 = ⟨[], "Yes", 1, 0, st0⟩ ∧
    jsonGetD (grade_hallucination (.throws "boom")) "binary_score" "" = "no" :=
  ⟨by decide, c8_failure_defaults.1 "provider down" gs1 (by decide),
    rfl, c8_failure_defaults.2.1 "boom" gs0 rfl,
    rfl, rfl,
    c8_failure_defaults.2.2.1 idHash goodEmb failCaps "q" st0 "network down" rfl rfl,
    c8_failure_defaults.2.2.2 "boom"⟩

/-- Claim C9 (confirmed): with an empty documents list, `generate_answer`
returns the fixed refusal answer with an empty documents field and ZERO
generation-capability calls, and the `generate` node stores that refusal
while leaving the state's documents empty. -/
theorem c9_empty_docs_refusal (cap : String → Except String String) (q : String)
    (st : GState) :
    generate_answer cap q [] = (.ok ⟨refusalAnswer, []⟩, 0) ∧
    generate_node cap { st with documents := [] } =
      .ok { st with documents := [], generation := some ⟨refusalAnswer, []⟩ } :=
  ⟨rfl, rfl⟩

end Sparky
